import Mathlib

/-!
# Verification of the financelake dashboard data pipeline

A shallow embedding of `src/dashboard/data_fetcher.py` (`fetch_stock_data`)
and `src/dashboard/callbacks.py` (`update_charts`), together with theorems
about the validation gates, the numeric-coercion policy and the derived
rolling-window columns.

Modelling conventions:
* JSON documents are an inductive `Json` type; rational numbers stand in for
  the source's floating-point numerics (the spec itself asks for an explicit
  optional numeric type instead of float NaN).
* pandas' missing-numeric sentinel (NaN) is `Option.none`; a missing date
  (NaT) is likewise `none` in the `Date` index column.
* The network and the remote body are a `RemoteBehavior` parameter: the
  possible observable outcomes of `requests.get` + `response.json()`.
  Every Python exception path that the source catches and converts to
  `return pd.DataFrame()` is embedded as an explicit `DataFrame.empty`
  result on the corresponding branch.
-/

namespace FinanceLake

/-- A parsed JSON document (the value returned by `response.json()`).
Objects are association lists of string keys. -/
inductive Json where
  | null : Json
  | bool : Bool → Json
  | num : ℚ → Json
  | str : String → Json
  | arr : List Json → Json
  | obj : List (String × Json) → Json

/-- Python `isinstance(v, str)`. -/
def Json.isStr : Json → Bool
  | .str _ => true
  | _ => false

/-- Python `isinstance(v, dict)`. -/
def Json.isObj : Json → Bool
  | .obj _ => true
  | _ => false

/-- Dictionary key access: `d[k]` / `k in d` (as `Option`); `none` on
non-objects or absent keys. -/
def Json.getKey? : Json → String → Option Json
  | .obj kvs, k => List.lookup k kvs
  | _, _ => none

/-- Digits-only string fragment to a natural number. -/
def parseDigits (cs : List Char) : Option Nat :=
  if cs ≠ [] ∧ cs.all Char.isDigit then
    some (cs.foldl (fun n c => n * 10 + (c.toNat - 48)) 0)
  else none

/-- `pd.to_datetime` on a `"YYYY-MM-DD"` string, the format the API contract
documents for the `date` field: encoded as `y*10000 + m*100 + d`, so that
`Nat` order coincides with chronological order.  Any other string is a parse
failure (`pd.to_datetime` raises on it). -/
def parseDate (s : String) : Option Nat :=
  match s.toList with
  | [y1, y2, y3, y4, '-', m1, m2, '-', d1, d2] =>
    match parseDigits [y1, y2, y3, y4], parseDigits [m1, m2], parseDigits [d1, d2] with
    | some y, some m, some d =>
      if 1 ≤ m ∧ m ≤ 12 ∧ 1 ≤ d ∧ d ≤ 31 then some (y * 10000 + m * 100 + d) else none
    | _, _, _ => none
  | _ => none

/-- Numeric string accepted by `pd.to_numeric` (decimal literal with optional
sign and fraction part); anything else coerces to NaN. -/
def parseNumericString (s : String) : Option ℚ :=
  let core : List Char → Option ℚ := fun cs =>
    match cs.span Char.isDigit with
    | (intPart, []) => (parseDigits intPart).map (fun n => (n : ℚ))
    | (intPart, '.' :: fracPart) =>
      if fracPart.all Char.isDigit then
        (parseDigits intPart).bind fun n =>
          (parseDigits fracPart).map fun f =>
            (n : ℚ) + (f : ℚ) / ((10 : ℚ) ^ fracPart.length)
      else none
    | _ => none
  match s.toList with
  | '-' :: rest => (core rest).map Neg.neg
  | '+' :: rest => core rest
  | cs => core cs

/-- One cell of `pd.to_numeric(column, errors='coerce')`: the outer `none` is
a missing cell (a record that lacked the key, already NaN), and every
unconvertible value coerces to the NaN sentinel (`none`). -/
def to_numeric : Option Json → Option ℚ
  | none => none
  | some .null => none
  | some (.bool b) => some (if b then 1 else 0)
  | some (.num q) => some q
  | some (.str s) => parseNumericString s
  | some (.arr _) => none
  | some (.obj _) => none

/-- One cell of `pd.to_datetime(column)`.  Outer `none` = the conversion
raises (caught by the catch-all handler, yielding the empty frame); inner
value = the converted cell, where `none` is NaT.  Missing cells and JSON
nulls convert to NaT without raising; numeric timestamps are accepted by
`pd.to_datetime` and are modelled by an abstract injection into the date
encoding; unparseable strings and structured values raise. -/
def toDatetimeEntry : Option Json → Option (Option Nat)
  | none => some none
  | some .null => some none
  | some (.str s) => (parseDate s).map some
  | some (.num q) => some (some q.floor.toNat)
  | some (.bool _) => none
  | some (.arr _) => none
  | some (.obj _) => none

/-- Sequence a column of fallible conversions: `some` iff no cell raises. -/
def allSome {α : Type} : List (Option α) → Option (List α)
  | [] => some []
  | none :: _ => none
  | some a :: rest => (allSome rest).map (a :: ·)

/-- The canonical OHLCV frame produced by `fetch_stock_data`: the `Date`
index (with `none` = NaT) and the five numeric columns (with `none` = NaN).
`pd.DataFrame()` and every error return is the all-empty frame. -/
structure DataFrame where
  Date : List (Option Nat)
  Open : List (Option ℚ)
  High : List (Option ℚ)
  Low : List (Option ℚ)
  Close : List (Option ℚ)
  Volume : List (Option ℚ)
deriving DecidableEq

/-- `pd.DataFrame()`, the uniform error return. -/
def DataFrame.empty : DataFrame :=
  { Date := [], Open := [], High := [], Low := [], Close := [], Volume := [] }

/-- `df.empty`: true iff the frame has no rows (the canonical frame always
carries its five columns, so emptiness is emptiness of the index). -/
def DataFrame.isEmpty (df : DataFrame) : Bool :=
  df.Date.isEmpty

/-- The `column_mapping` dict of `fetch_stock_data`: API point-record keys to
canonical column names. -/
def column_mapping : List (String × String) :=
  [("date", "Date"), ("open", "Open"), ("high", "High"),
   ("low", "Low"), ("close", "Close"), ("volume", "Volume")]

/-- `required_cols` of `fetch_stock_data`. -/
def required_cols : List String :=
  ["Date", "Open", "High", "Low", "Close", "Volume"]

/-- Whether a key occurs in at least one point-record: exactly when
`pd.DataFrame(rows)` gives the frame a column of that name (missing cells
become NaN). -/
def keyPresent (rows : List Json) (k : String) : Bool :=
  rows.any (fun r => (r.getKey? k).isSome)

/-- The raw cells of the column labelled `k` in `pd.DataFrame(rows)`:
row `i` holds `rows[i][k]`, or NaN (`none`) when record `i` lacks the key. -/
def colEntries (rows : List Json) (k : String) : List (Option Json) :=
  rows.map (fun r => r.getKey? k)

/-- The column that ends up under canonical label `C` after
`df.rename(columns=column_mapping)`, where `k` is the API key mapped to `C`.
`none` when the canonical column is unusable: either absent from the whole
point-set (both labels missing — the `required_cols` gate then fails), or
duplicated because both `k` and `C` occur as record keys (the renamed frame
then has two columns labelled `C`, and the later column-wise conversions
raise, which the catch-all turns into the empty frame). -/
def resolveCol (rows : List Json) (k C : String) : Option (List (Option Json)) :=
  match keyPresent rows k, keyPresent rows C with
  | true, true => none
  | true, false => some (colEntries rows k)
  | false, true => some (colEntries rows C)
  | false, false => none

/-- The observable outcomes of `requests.get(api_url, timeout=10)` followed
by `response.raise_for_status()` and `response.json()`. -/
inductive RemoteBehavior where
  | connectionError : RemoteBehavior
  | timeout : RemoteBehavior
  | httpStatusError : Nat → RemoteBehavior
  | jsonDecodeError : RemoteBehavior
  | ok : Json → RemoteBehavior

/-- The request URL built by `fetch_stock_data`. -/
def api_url (symbol start_date end_date api_base_url : String) : String :=
  api_base_url ++ "/data/stock/" ++ symbol ++ "?from=" ++ start_date ++ "&to=" ++ end_date

/-- `fetch_stock_data` of `src/dashboard/data_fetcher.py`, as a function of
the remote behaviour.  Every `except` branch of the source returns
`pd.DataFrame()`; here each such branch is an explicit `DataFrame.empty`:

* transport failures (`RequestException` incl. timeouts, `HTTPError` from
  `raise_for_status`) — empty;
* `response.json()` decode failure — empty;
* structural gate: parsed value must be a dict with keys `symbol` and `data`,
  `data` a list — else empty;
* `parsed['symbol'].upper()` on a non-string raises `AttributeError`, which
  the final `except Exception` turns into empty (a mismatching string symbol
  only prints a warning and continues);
* empty `data` list — empty;
* non-record elements in `data` make `pd.DataFrame` either raise or produce a
  frame without the required columns — empty either way;
* a required canonical column absent (or duplicated by renaming) — empty;
* a date cell on which `pd.to_datetime` raises — empty via the catch-all;
* otherwise the canonical frame, with per-cell `errors='coerce'` numeric
  conversion of the five value columns. -/
def fetch_stock_data (symbol start_date end_date api_base_url : String)
    (remote : RemoteBehavior) : DataFrame :=
  match remote with
  | .connectionError => DataFrame.empty
  | .timeout => DataFrame.empty
  | .httpStatusError _ => DataFrame.empty
  | .jsonDecodeError => DataFrame.empty
  | .ok parsed =>
    match parsed with
    | .obj kvs =>
      match List.lookup "symbol" kvs, List.lookup "data" kvs with
      | some symVal, some (.arr rows) =>
        match symVal with
        | .str _ =>
          if rows.isEmpty then DataFrame.empty
          else if rows.all Json.isObj then
            match resolveCol rows "date" "Date", resolveCol rows "open" "Open",
                  resolveCol rows "high" "High", resolveCol rows "low" "Low",
                  resolveCol rows "close" "Close", resolveCol rows "volume" "Volume" with
            | some dcol, some ocol, some hcol, some lcol, some ccol, some vcol =>
              match allSome (dcol.map toDatetimeEntry) with
              | some dates =>
                { Date := dates,
                  Open := ocol.map to_numeric,
                  High := hcol.map to_numeric,
                  Low := lcol.map to_numeric,
                  Close := ccol.map to_numeric,
                  Volume := vcol.map to_numeric }
              | none => DataFrame.empty
            | _, _, _, _, _, _ => DataFrame.empty
          else DataFrame.empty
        | _ => DataFrame.empty
      | _, _ => DataFrame.empty
    | _ => DataFrame.empty

/-! ## Gate predicates

An independent rendering of the validation gates, used to state that the
fetcher returns empty on every failure path (claim C1).  Each predicate is
written against the parsed document directly, not against the branch
structure of `fetch_stock_data`. -/

/-- The `data` rows of a parsed document (empty when absent/ill-typed). -/
def dataRows (j : Json) : List Json :=
  match j.getKey? "data" with
  | some (.arr rows) => rows
  | _ => []

/-- Structural gate: a dict holding a `symbol` key and a list-valued
`data` key. -/
def structurallyValid (j : Json) : Bool :=
  j.isObj && (j.getKey? "symbol").isSome &&
    (match j.getKey? "data" with
     | some (.arr _) => true
     | _ => false)

/-- The `symbol` value supports `.upper()`, i.e. is a string. -/
def symbolIsString (j : Json) : Bool :=
  match j.getKey? "symbol" with
  | some (.str _) => true
  | _ => false

/-- Emptiness gate: at least one data point. -/
def dataNonempty (j : Json) : Bool :=
  !(dataRows j).isEmpty

/-- Every data point is a record (dict). -/
def rowsAreRecords (j : Json) : Bool :=
  (dataRows j).all Json.isObj

/-- Column gate: each canonical column is resolvable after renaming. -/
def columnsResolvable (j : Json) : Bool :=
  column_mapping.all (fun p => (resolveCol (dataRows j) p.1 p.2).isSome)

/-- Temporal gate: `pd.to_datetime` on the `Date` column raises nowhere. -/
def datesConvertible (j : Json) : Bool :=
  match resolveCol (dataRows j) "date" "Date" with
  | some dcol => (allSome (dcol.map toDatetimeEntry)).isSome
  | none => false

/-- All gates of the fetch pipeline pass: transport and decode succeeded and
the parsed document survives every validation stage. -/
def passesAllGates (remote : RemoteBehavior) : Bool :=
  match remote with
  | .ok j =>
    structurallyValid j && symbolIsString j && dataNonempty j &&
      rowsAreRecords j && columnsResolvable j && datesConvertible j
  | _ => false

/-- The converted `Date` index a successful fetch would carry: the payload's
date cells, converted in payload order. -/
def payloadDates (remote : RemoteBehavior) : List (Option Nat) :=
  match remote with
  | .ok j =>
    match resolveCol (dataRows j) "date" "Date" with
    | some dcol => (allSome (dcol.map toDatetimeEntry)).getD []
    | none => []
  | _ => []

/-- The index is strictly increasing with no NaT (hence all dates unique). -/
def datesStrictlyIncreasing : List (Option Nat) → Bool
  | [] => true
  | [_] => true
  | a :: b :: rest =>
    (match a, b with
     | some x, some y => decide (x < y)
     | _, _ => false) && datesStrictlyIncreasing (b :: rest)

/-! ## Metric derivation engine (`update_charts` of `src/dashboard/callbacks.py`) -/

/-- The trailing window of rows feeding a rolling computation at row `t`:
the last `min (t+1) window` elements of the first `t+1`. -/
def windowSlice {α : Type} (window : Nat) (xs : List α) (t : Nat) : List α :=
  (xs.take (t + 1)).drop (t + 1 - window)

/-- `Series.rolling(window=w, min_periods=m).agg(...)`: at each row, the
aggregate of the non-NaN observations in the trailing window, or NaN when
fewer than `min_periods` observations are available. -/
def rollingApply (agg : List ℚ → Option ℚ) (window min_periods : Nat)
    (xs : List (Option ℚ)) : List (Option ℚ) :=
  (List.range xs.length).map fun t =>
    let obs := (windowSlice window xs t).filterMap id
    if min_periods ≤ obs.length then agg obs else none

/-- Arithmetic mean. -/
def mean (l : List ℚ) : ℚ :=
  l.sum / l.length

/-- `.mean()` aggregate: NaN on an empty observation set. -/
def meanAgg (l : List ℚ) : Option ℚ :=
  if l.isEmpty then none else some (mean l)

/-- Sample variance with `ddof = 1`, the square of pandas' `.std()`. -/
def sampleVariance (l : List ℚ) : ℚ :=
  ((l.map (fun x => (x - mean l) ^ 2)).sum) / ((l.length : ℚ) - 1)

/-- `.std()` aggregate, represented by the variance under the square root:
NaN on fewer than two observations (`ddof = 1` divides by `n - 1`). -/
def stdAgg (l : List ℚ) : Option ℚ :=
  if l.length < 2 then none else some (sampleVariance l)

/-- `Series.shift(1)`: NaN in row 0, previous value elsewhere. -/
def shift1 (xs : List (Option ℚ)) : List (Option ℚ) :=
  none :: xs.dropLast

/-- `Series.pct_change()`: `(x[t] - x[t-1]) / x[t-1]`, NaN when either cell
is NaN (row 0 in particular). -/
def pct_change (xs : List (Option ℚ)) : List (Option ℚ) :=
  List.zipWith
    (fun cur prev =>
      match cur, prev with
      | some c, some p => some ((c - p) / p)
      | _, _ => none)
    xs (shift1 xs)

/-- `rolling(window, min_periods).std()`: the square root of the rolling
sample variance, in the reals. -/
noncomputable def rolling_std (window min_periods : Nat) (xs : List (Option ℚ)) :
    List (Option ℝ) :=
  (rollingApply stdAgg window min_periods xs).map
    (Option.map fun q : ℚ => Real.sqrt (q : ℝ))

/-- The data series attached to the four figures returned by
`update_charts`: a field is `none` exactly when the corresponding
`add_trace` call does not run, so the rendered output omits that series. -/
structure ChartsOutput where
  closeTrace : Option (List (Option ℚ))
  ma50Trace : Option (List (Option ℚ))
  ma200Trace : Option (List (Option ℚ))
  volumeTrace : Option (List (Option ℚ))
  dailyReturnTrace : Option (List (Option ℚ))
  volatilityTrace : Option (List (Option ℝ))

/-- The chart-updating callback of `src/dashboard/callbacks.py`, restricted
to its data content: which series each figure carries for a fetched frame
`df` and the three toggle inputs (figure layout, titles and the
error-message outputs carry no series data; the canonical frame always has a
`Close` column, so the source's `'Close' in df.columns` guard is true).

* empty frame: all placeholder figures, no traces;
* `MA50` / `MA200` (lines 69-77): computed with `rolling(window,
  min_periods=1).mean()`, and the trace is added only when the column is not
  entirely NaN;
* `Daily Return` (lines 98-109): `pct_change() * 100` when toggled on;
* `Volatility` (lines 111-122): `rolling(30, min_periods=1).std()` when
  toggled on. -/
noncomputable def update_charts (df : DataFrame)
    (ma_selected_values return_toggle_value volatility_toggle_value : List String) :
    ChartsOutput :=
  if df.isEmpty then
    { closeTrace := none, ma50Trace := none, ma200Trace := none,
      volumeTrace := none, dailyReturnTrace := none, volatilityTrace := none }
  else
    { closeTrace := some df.Close,
      ma50Trace :=
        if "MA50" ∈ ma_selected_values then
          if (rollingApply meanAgg 50 1 df.Close).all Option.isNone then none
          else some (rollingApply meanAgg 50 1 df.Close)
        else none,
      ma200Trace :=
        if "MA200" ∈ ma_selected_values then
          if (rollingApply meanAgg 200 1 df.Close).all Option.isNone then none
          else some (rollingApply meanAgg 200 1 df.Close)
        else none,
      volumeTrace := some df.Volume,
      dailyReturnTrace :=
        if "SHOW_RETURNS" ∈ return_toggle_value ∧ ¬ df.Close.isEmpty then
          some ((pct_change df.Close).map (Option.map (· * 100)))
        else none,
      volatilityTrace :=
        if "SHOW_VOLATILITY" ∈ volatility_toggle_value ∧ ¬ df.Close.isEmpty then
          some (rolling_std 30 1 df.Close)
        else none }

/-! ## Rolling-window helper lemmas -/

theorem windowSlice_length {α : Type} (w : Nat) (xs : List α) (t : Nat)
    (ht : t < xs.length) : (windowSlice w xs t).length = min (t + 1) w := by
  simp only [windowSlice, List.length_drop, List.length_take]
  omega

theorem windowSlice_map {α β : Type} (f : α → β) (w : Nat) (xs : List α) (t : Nat) :
    windowSlice w (xs.map f) t = (windowSlice w xs t).map f := by
  simp only [windowSlice, ← List.map_take, ← List.map_drop]

theorem filterMap_id_map_some {α : Type} (l : List α) :
    (l.map Option.some).filterMap id = l := by
  rw [List.filterMap_map]
  simp only [Function.comp_id, Function.id_comp]
  exact List.filterMap_some l

/-- Row `t` of a rolling aggregate over an all-numeric series: the aggregate
of the trailing window when it meets `min_periods`, NaN otherwise. -/
theorem rollingApply_getElem? (agg : List ℚ → Option ℚ) (w minp : Nat)
    (closes : List ℚ) (t : Nat) (ht : t < closes.length) :
    (rollingApply agg w minp (closes.map Option.some))[t]? =
      some (if minp ≤ (windowSlice w closes t).length
            then agg (windowSlice w closes t) else none) := by
  unfold rollingApply
  rw [List.getElem?_map, List.length_map, List.getElem?_range ht]
  simp [windowSlice_map, filterMap_id_map_some]

/-- Row `t` of `rolling(w, min_periods=1).mean()` over an all-numeric
series: the mean of the trailing window. -/
theorem rollingMean_getElem? (w : Nat) (hw : 1 ≤ w) (closes : List ℚ) (t : Nat)
    (ht : t < closes.length) :
    (rollingApply meanAgg w 1 (closes.map Option.some))[t]? =
      some (some (mean (windowSlice w closes t))) := by
  rw [rollingApply_getElem? _ _ _ _ _ ht]
  have hlen := windowSlice_length w closes t ht
  have h1 : 1 ≤ (windowSlice w closes t).length := by omega
  rw [if_pos h1]
  have hne : (windowSlice w closes t).isEmpty = false := by
    rw [List.isEmpty_eq_false]
    exact List.ne_nil_of_length_pos (by omega)
  simp [meanAgg, hne]

theorem rollingMean_not_all_none (w : Nat) (hw : 1 ≤ w) (closes : List ℚ)
    (hne : closes ≠ []) :
    (rollingApply meanAgg w 1 (closes.map Option.some)).all Option.isNone = false := by
  have h0 : 0 < closes.length := List.length_pos.mpr hne
  have h := rollingMean_getElem? w hw closes 0 h0
  rcases hall : (rollingApply meanAgg w 1 (closes.map Option.some)).all Option.isNone with _ | _
  · rfl
  · exfalso
    have hmem := List.getElem?_mem h
    have := (List.all_eq_true.mp hall) _ hmem
    simp at this

theorem rollingStd_getElem?_zero (w : Nat) (hw : 1 ≤ w) (closes : List ℚ)
    (h0 : 0 < closes.length) :
    (rollingApply stdAgg w 1 (closes.map Option.some))[0]? = some none := by
  rw [rollingApply_getElem? _ _ _ _ _ h0]
  have hlen := windowSlice_length w closes 0 h0
  have h1 : 1 ≤ (windowSlice w closes 0).length := by omega
  rw [if_pos h1]
  have h2 : (windowSlice w closes 0).length < 2 := by omega
  simp [stdAgg, h2]

theorem rollingStd_getElem?_succ (w : Nat) (hw : 2 ≤ w) (closes : List ℚ) (t : Nat)
    (ht : t + 1 < closes.length) :
    (rollingApply stdAgg w 1 (closes.map Option.some))[t + 1]? =
      some (some (sampleVariance (windowSlice w closes (t + 1)))) := by
  rw [rollingApply_getElem? _ _ _ _ _ ht]
  have hlen := windowSlice_length w closes (t + 1) ht
  have h1 : 1 ≤ (windowSlice w closes (t + 1)).length := by omega
  rw [if_pos h1]
  have h2 : ¬ (windowSlice w closes (t + 1)).length < 2 := by omega
  simp [stdAgg, h2]

theorem pct_change_getElem?_zero (xs : List (Option ℚ)) (hne : xs ≠ []) :
    (pct_change xs)[0]? = some none := by
  cases xs with
  | nil => exact absurd rfl hne
  | cons a rest =>
    cases a <;> simp [pct_change, shift1]

theorem pct_change_getElem?_succ (closes : List ℚ) (t : Nat)
    (ht : t + 1 < closes.length) :
    (pct_change (closes.map Option.some))[t + 1]? =
      some (some ((closes.getD (t + 1) 0 - closes.getD t 0) / closes.getD t 0)) := by
  have ht' : t < closes.length := by omega
  unfold pct_change
  rw [List.getElem?_zipWith]
  have hcur : (closes.map Option.some)[t + 1]? = some (some (closes.getD (t + 1) 0)) := by
    rw [List.getElem?_map, List.getElem?_eq_getElem ht]
    simp [List.getD_eq_getElem?_getD, List.getElem?_eq_getElem ht]
  have hprev : (shift1 (closes.map Option.some))[t + 1]? = some (some (closes.getD t 0)) := by
    unfold shift1
    rw [List.getElem?_cons_succ, List.getElem?_dropLast]
    rw [if_pos (by simp only [List.length_map]; omega)]
    rw [List.getElem?_map, List.getElem?_eq_getElem ht']
    simp [List.getD_eq_getElem?_getD, List.getElem?_eq_getElem ht']
  rw [hcur, hprev]

/-! ## Claims about the metric derivation engine -/

/-- C2: for a non-empty series on which MA50 (respectively MA200) is
requested, if every value of the computed moving-average column is the
missing-numeric sentinel, the derived column is omitted from the output
(no trace is attached to the price figure). -/
theorem ma_all_sentinel_column_omitted (df : DataFrame)
    (mas rtv vtv : List String) (hne : df.isEmpty = false) :
    ("MA50" ∈ mas → (rollingApply meanAgg 50 1 df.Close).all Option.isNone = true →
      (update_charts df mas rtv vtv).ma50Trace = none) ∧
    ("MA200" ∈ mas → (rollingApply meanAgg 200 1 df.Close).all Option.isNone = true →
      (update_charts df mas rtv vtv).ma200Trace = none) := by
  constructor
  · intro hmem hall
    simp [update_charts, hne, hmem, hall]
  · intro hmem hall
    simp [update_charts, hne, hmem, hall]

/-- C2 witness: one row whose `Close` is the sentinel; both moving averages
are requested and both traces are omitted. -/
theorem ma_all_sentinel_column_omitted_witness :
    (update_charts
      { Date := [some 20240101], Open := [none], High := [none], Low := [none],
        Close := [none], Volume := [none] } ["MA50", "MA200"] [] []).ma50Trace = none ∧
    (update_charts
      { Date := [some 20240101], Open := [none], High := [none], Low := [none],
        Close := [none], Volume := [none] } ["MA50", "MA200"] [] []).ma200Trace = none := by
  have h := ma_all_sentinel_column_omitted
    { Date := [some 20240101], Open := [none], High := [none], Low := [none],
      Close := [none], Volume := [none] } ["MA50", "MA200"] [] [] (by decide)
  exact ⟨h.1 (by decide) (by decide), h.2 (by decide) (by decide)⟩

/-- C6: for a non-empty all-numeric `Close` series, the requested moving
average exists as a trace, and its value at row `t` is the arithmetic mean
of `Close` over the trailing window of `min (t+1) w` rows (`w` = 50 or 200);
in particular the first row's moving average is its own `Close`. -/
theorem moving_average_partial_window (df : DataFrame) (closes : List ℚ)
    (mas rtv vtv : List String) (hC : df.Close = closes.map Option.some)
    (hne : df.isEmpty = false) (hcl : closes ≠ []) :
    ("MA50" ∈ mas → (update_charts df mas rtv vtv).ma50Trace =
        some (rollingApply meanAgg 50 1 df.Close)) ∧
    ("MA200" ∈ mas → (update_charts df mas rtv vtv).ma200Trace =
        some (rollingApply meanAgg 200 1 df.Close)) ∧
    (∀ t, t < closes.length →
      (rollingApply meanAgg 50 1 df.Close)[t]? =
          some (some (mean (windowSlice 50 closes t))) ∧
      (windowSlice 50 closes t).length = min (t + 1) 50 ∧
      (rollingApply meanAgg 200 1 df.Close)[t]? =
          some (some (mean (windowSlice 200 closes t))) ∧
      (windowSlice 200 closes t).length = min (t + 1) 200) ∧
    (rollingApply meanAgg 50 1 df.Close)[0]? = some (some (closes.getD 0 0)) ∧
    (rollingApply meanAgg 200 1 df.Close)[0]? = some (some (closes.getD 0 0)) := by
  have h0 : 0 < closes.length := List.length_pos.mpr hcl
  have hfirst : ∀ w : Nat, 1 ≤ w →
      (rollingApply meanAgg w 1 (closes.map Option.some))[0]? =
        some (some (closes.getD 0 0)) := by
    intro w hw
    rw [rollingMean_getElem? w hw closes 0 h0]
    cases closes with
    | nil => exact absurd rfl hcl
    | cons a rest =>
      have hwin : windowSlice w (a :: rest) 0 = [a] := by
        have hz : 1 - w = 0 := by omega
        simp [windowSlice, hz]
      simp [hwin, mean]
  refine ⟨?_, ?_, ?_,
    by rw [hC]; exact hfirst 50 (by omega),
    by rw [hC]; exact hfirst 200 (by omega)⟩
  · intro hmem
    simp [update_charts, hne, hmem, hC,
      rollingMean_not_all_none 50 (by omega) closes hcl]
  · intro hmem
    simp [update_charts, hne, hmem, hC,
      rollingMean_not_all_none 200 (by omega) closes hcl]
  · intro t ht
    rw [hC]
    exact ⟨rollingMean_getElem? 50 (by omega) closes t ht,
      windowSlice_length 50 closes t ht,
      rollingMean_getElem? 200 (by omega) closes t ht,
      windowSlice_length 200 closes t ht⟩

/-- C6 witness: a two-row series with Close `[100, 110]`: MA50 is the partial
window running mean `[100, 105]`, not NaN. -/
theorem moving_average_partial_window_witness :
    (update_charts
      { Date := [some 20240101, some 20240102], Open := [some 150, some 156],
        High := [some 157, some 159], Low := [some 149, some 154],
        Close := [some 100, some 110], Volume := [some 1000000, some 1100000] }
      ["MA50", "MA200"] [] []).ma50Trace =
        some (rollingApply meanAgg 50 1 [some 100, some 110]) ∧
    rollingApply meanAgg 50 1 [some (100 : ℚ), some 110] = [some 100, some 105] := by
  constructor
  · exact (moving_average_partial_window
      { Date := [some 20240101, some 20240102], Open := [some 150, some 156],
        High := [some 157, some 159], Low := [some 149, some 154],
        Close := [some 100, some 110], Volume := [some 1000000, some 1100000] }
      [100, 110] ["MA50", "MA200"] [] [] rfl (by decide) (by decide)).1 (by decide)
  · norm_num [rollingApply, windowSlice, meanAgg, mean, List.range_succ,
      List.filterMap_cons, List.sum_cons]
    exact ⟨(fun h => nomatch h), (fun h _ => nomatch h)⟩

/-- C7: for a non-empty all-numeric `Close` series with daily returns
requested, the trace is `pct_change * 100`; its first row is the sentinel
and row `t+1` is `(Close[t+1] - Close[t]) / Close[t] * 100`. -/
theorem daily_return_formula (df : DataFrame) (closes : List ℚ)
    (mas rtv vtv : List String) (hC : df.Close = closes.map Option.some)
    (hne : df.isEmpty = false) (hcl : closes ≠ [])
    (hr : "SHOW_RETURNS" ∈ rtv) :
    (update_charts df mas rtv vtv).dailyReturnTrace =
      some ((pct_change df.Close).map (Option.map (· * 100))) ∧
    ((pct_change df.Close).map (Option.map (· * 100)))[0]? = some none ∧
    (∀ t, t + 1 < closes.length →
      ((pct_change df.Close).map (Option.map (· * 100)))[t + 1]? =
        some (some ((closes.getD (t + 1) 0 - closes.getD t 0) /
          closes.getD t 0 * 100))) := by
  have hmapne : closes.map Option.some ≠ [] := by
    simpa using hcl
  refine ⟨?_, ?_, ?_⟩
  · simp [update_charts, hne, hr, hC, hmapne]
  · rw [hC, List.getElem?_map, pct_change_getElem?_zero _ hmapne]
    rfl
  · intro t ht
    rw [hC, List.getElem?_map, pct_change_getElem?_succ closes t ht]
    rfl

/-- C7 witness: Close `[100, 110]` yields daily returns `[NaN, 10.0]`. -/
theorem daily_return_formula_witness :
    (update_charts
      { Date := [some 20240101, some 20240102], Open := [some 150, some 156],
        High := [some 157, some 159], Low := [some 149, some 154],
        Close := [some 100, some 110], Volume := [some 1000000, some 1100000] }
      [] ["SHOW_RETURNS"] []).dailyReturnTrace =
        some ((pct_change [some 100, some 110]).map (Option.map (· * 100))) ∧
    (pct_change [some (100 : ℚ), some 110]).map (Option.map (· * 100)) =
      [none, some 10] := by
  constructor
  · exact (daily_return_formula
      { Date := [some 20240101, some 20240102], Open := [some 150, some 156],
        High := [some 157, some 159], Low := [some 149, some 154],
        Close := [some 100, some 110], Volume := [some 1000000, some 1100000] }
      [100, 110] [] ["SHOW_RETURNS"] [] rfl (by decide) (by decide) (by decide)).1
  · norm_num [pct_change, shift1]

/-- C8: for a non-empty all-numeric `Close` series with volatility
requested, the trace is `rolling(30, min_periods=1).std()`; row 0 (a
single-sample standard deviation under `ddof=1`) is the sentinel, and row
`t+1` is the sample standard deviation of the trailing window of
`min (t+2) 30` rows. -/
theorem volatility_rolling_std_window (df : DataFrame) (closes : List ℚ)
    (mas rtv vtv : List String) (hC : df.Close = closes.map Option.some)
    (hne : df.isEmpty = false) (hcl : closes ≠ [])
    (hv : "SHOW_VOLATILITY" ∈ vtv) :
    (update_charts df mas rtv vtv).volatilityTrace = some (rolling_std 30 1 df.Close) ∧
    (rolling_std 30 1 df.Close)[0]? = some none ∧
    (∀ t, t + 1 < closes.length →
      (rolling_std 30 1 df.Close)[t + 1]? =
        some (some (Real.sqrt (sampleVariance (windowSlice 30 closes (t + 1))))) ∧
      (windowSlice 30 closes (t + 1)).length = min (t + 2) 30) := by
  have h0 : 0 < closes.length := List.length_pos.mpr hcl
  have hmapne : closes.map Option.some ≠ [] := by
    simpa using hcl
  refine ⟨?_, ?_, ?_⟩
  · simp [update_charts, hne, hv, hC, hmapne]
  · rw [hC]
    unfold rolling_std
    rw [List.getElem?_map, rollingStd_getElem?_zero 30 (by omega) closes h0]
    rfl
  · intro t ht
    refine ⟨?_, windowSlice_length 30 closes (t + 1) ht⟩
    rw [hC]
    unfold rolling_std
    rw [List.getElem?_map, rollingStd_getElem?_succ 30 (by omega) closes t ht]
    rfl

/-- C8 witness: Close `[100, 110]`: the volatility trace is attached, its
row 0 is the sentinel, and the rolling sample variance under the square
root is `[NaN, 50]`. -/
theorem volatility_rolling_std_window_witness :
    (update_charts
      { Date := [some 20240101, some 20240102], Open := [some 150, some 156],
        High := [some 157, some 159], Low := [some 149, some 154],
        Close := [some 100, some 110], Volume := [some 1000000, some 1100000] }
      [] [] ["SHOW_VOLATILITY"]).volatilityTrace =
        some (rolling_std 30 1 [some 100, some 110]) ∧
    (rolling_std 30 1 [some (100 : ℚ), some 110])[0]? = some none ∧
    rollingApply stdAgg 30 1 [some (100 : ℚ), some 110] = [none, some 50] := by
  have h := volatility_rolling_std_window
    { Date := [some 20240101, some 20240102], Open := [some 150, some 156],
      High := [some 157, some 159], Low := [some 149, some 154],
      Close := [some 100, some 110], Volume := [some 1000000, some 1100000] }
    [100, 110] [] [] ["SHOW_VOLATILITY"] rfl (by decide) (by decide) (by decide)
  refine ⟨h.1, h.2.1, ?_⟩
  norm_num [rollingApply, windowSlice, stdAgg, sampleVariance, mean,
    List.range_succ, List.filterMap_cons, List.sum_cons]

/-! ## Fetcher helper lemmas -/

theorem allSome_length {α : Type} {l : List (Option α)} {xs : List α}
    (h : allSome l = some xs) : xs.length = l.length := by
  induction l generalizing xs with
  | nil =>
    simp only [allSome] at h
    cases h
    rfl
  | cons a rest ih =>
    cases a with
    | none => simp [allSome] at h
    | some b =>
      simp only [allSome, Option.map_eq_some'] at h
      obtain ⟨ys, hys, rfl⟩ := h
      simp [ih hys]

/-- When every gate passes (record rows, each canonical column fed by its
lowercase API key, dates all convertible), the fetch returns the canonical
frame built column-by-column by per-cell coercion. -/
theorem fetch_success_frame (symbol start_date end_date api_base_url sv : String)
    (kvs : List (String × Json)) (rows : List Json) (dates : List (Option Nat))
    (hsym : List.lookup "symbol" kvs = some (Json.str sv))
    (hdata : List.lookup "data" kvs = some (Json.arr rows))
    (hrows : rows.isEmpty = false) (hrec : rows.all Json.isObj = true)
    (hcols : ∀ p ∈ column_mapping, keyPresent rows p.1 = true ∧ keyPresent rows p.2 = false)
    (hdates : allSome ((colEntries rows "date").map toDatetimeEntry) = some dates) :
    fetch_stock_data symbol start_date end_date api_base_url (.ok (.obj kvs)) =
      { Date := dates,
        Open := (colEntries rows "open").map to_numeric,
        High := (colEntries rows "high").map to_numeric,
        Low := (colEntries rows "low").map to_numeric,
        Close := (colEntries rows "close").map to_numeric,
        Volume := (colEntries rows "volume").map to_numeric } := by
  have hd : resolveCol rows "date" "Date" = some (colEntries rows "date") := by
    have h := hcols ("date", "Date") (by simp [column_mapping])
    simp [resolveCol, h.1, h.2]
  have ho : resolveCol rows "open" "Open" = some (colEntries rows "open") := by
    have h := hcols ("open", "Open") (by simp [column_mapping])
    simp [resolveCol, h.1, h.2]
  have hh : resolveCol rows "high" "High" = some (colEntries rows "high") := by
    have h := hcols ("high", "High") (by simp [column_mapping])
    simp [resolveCol, h.1, h.2]
  have hl : resolveCol rows "low" "Low" = some (colEntries rows "low") := by
    have h := hcols ("low", "Low") (by simp [column_mapping])
    simp [resolveCol, h.1, h.2]
  have hc : resolveCol rows "close" "Close" = some (colEntries rows "close") := by
    have h := hcols ("close", "Close") (by simp [column_mapping])
    simp [resolveCol, h.1, h.2]
  have hv2 : resolveCol rows "volume" "Volume" = some (colEntries rows "volume") := by
    have h := hcols ("volume", "Volume") (by simp [column_mapping])
    simp [resolveCol, h.1, h.2]
  simp [fetch_stock_data, hsym, hdata, hrows, hrec, hd, ho, hh, hl, hc, hv2, hdates]

/-- Exhaustive description of a fetch: either the result is the empty frame,
or the payload passed every gate and the result is the canonical frame built
from the resolved columns. -/
theorem fetch_cases (symbol start_date end_date api_base_url : String)
    (remote : RemoteBehavior) :
    fetch_stock_data symbol start_date end_date api_base_url remote = DataFrame.empty ∨
    ∃ kvs sv rows dcol ocol hcol2 lcol ccol vcol dates,
      remote = RemoteBehavior.ok (Json.obj kvs) ∧
      List.lookup "symbol" kvs = some (Json.str sv) ∧
      List.lookup "data" kvs = some (Json.arr rows) ∧
      rows.isEmpty = false ∧
      rows.all Json.isObj = true ∧
      resolveCol rows "date" "Date" = some dcol ∧
      resolveCol rows "open" "Open" = some ocol ∧
      resolveCol rows "high" "High" = some hcol2 ∧
      resolveCol rows "low" "Low" = some lcol ∧
      resolveCol rows "close" "Close" = some ccol ∧
      resolveCol rows "volume" "Volume" = some vcol ∧
      allSome (dcol.map toDatetimeEntry) = some dates ∧
      fetch_stock_data symbol start_date end_date api_base_url remote =
        { Date := dates, Open := ocol.map to_numeric, High := hcol2.map to_numeric,
          Low := lcol.map to_numeric, Close := ccol.map to_numeric,
          Volume := vcol.map to_numeric } := by
  cases remote with
  | connectionError => exact Or.inl rfl
  | timeout => exact Or.inl rfl
  | httpStatusError code => exact Or.inl rfl
  | jsonDecodeError => exact Or.inl rfl
  | ok parsed =>
    cases parsed with
    | null => exact Or.inl rfl
    | bool b => exact Or.inl rfl
    | num q => exact Or.inl rfl
    | str s => exact Or.inl rfl
    | arr xs => exact Or.inl rfl
    | obj kvs =>
      rcases hsym : List.lookup "symbol" kvs with _ | symVal
      · exact Or.inl (by simp [fetch_stock_data, hsym])
      rcases hdata : List.lookup "data" kvs with _ | dataVal
      · exact Or.inl (by simp [fetch_stock_data, hsym, hdata])
      cases dataVal with
      | null => exact Or.inl (by simp [fetch_stock_data, hsym, hdata])
      | bool b => exact Or.inl (by simp [fetch_stock_data, hsym, hdata])
      | num q => exact Or.inl (by simp [fetch_stock_data, hsym, hdata])
      | str s => exact Or.inl (by simp [fetch_stock_data, hsym, hdata])
      | obj kvs2 => exact Or.inl (by simp [fetch_stock_data, hsym, hdata])
      | arr rows =>
        cases symVal with
        | null => exact Or.inl (by simp [fetch_stock_data, hsym, hdata])
        | bool b => exact Or.inl (by simp [fetch_stock_data, hsym, hdata])
        | num q => exact Or.inl (by simp [fetch_stock_data, hsym, hdata])
        | arr xs => exact Or.inl (by simp [fetch_stock_data, hsym, hdata])
        | obj kvs2 => exact Or.inl (by simp [fetch_stock_data, hsym, hdata])
        | str sv =>
          rcases hemp : rows.isEmpty with _ | _
          · rcases hrec : rows.all Json.isObj with _ | _
            · exact Or.inl (by simp [fetch_stock_data, hsym, hdata, hemp, hrec])
            · rcases hd : resolveCol rows "date" "Date" with _ | dcol
              · exact Or.inl (by simp [fetch_stock_data, hsym, hdata, hemp, hrec, hd])
              rcases ho : resolveCol rows "open" "Open" with _ | ocol
              · exact Or.inl (by simp [fetch_stock_data, hsym, hdata, hemp, hrec, hd, ho])
              rcases hh : resolveCol rows "high" "High" with _ | hcol2
              · exact Or.inl (by simp [fetch_stock_data, hsym, hdata, hemp, hrec, hd, ho, hh])
              rcases hl : resolveCol rows "low" "Low" with _ | lcol
              · exact Or.inl (by simp [fetch_stock_data, hsym, hdata, hemp, hrec, hd, ho, hh, hl])
              rcases hc : resolveCol rows "close" "Close" with _ | ccol
              · exact Or.inl (by simp [fetch_stock_data, hsym, hdata, hemp, hrec, hd, ho, hh, hl, hc])
              rcases hv2 : resolveCol rows "volume" "Volume" with _ | vcol
              · exact Or.inl (by
                  simp [fetch_stock_data, hsym, hdata, hemp, hrec, hd, ho, hh, hl, hc, hv2])
              rcases hdt : allSome (dcol.map toDatetimeEntry) with _ | dates
              · exact Or.inl (by
                  simp [fetch_stock_data, hsym, hdata, hemp, hrec, hd, ho, hh, hl, hc, hv2, hdt])
              · refine Or.inr ⟨kvs, sv, rows, dcol, ocol, hcol2, lcol, ccol, vcol, dates,
                  rfl, hsym, hdata, hemp, hrec, hd, ho, hh, hl, hc, hv2, hdt, ?_⟩
                simp [fetch_stock_data, hsym, hdata, hemp, hrec, hd, ho, hh, hl, hc, hv2, hdt]
          · exact Or.inl (by simp [fetch_stock_data, hsym, hdata, hemp])

/-! ## Claims about the fetcher -/

/-- C1: `fetch_stock_data` is a total function of the remote behaviour (no
exception reaches the caller), and on every failure path — transport error,
timeout, non-success status, undecodable body, wrong-shaped document, or any
processing error absorbed by the catch-all handler — the result is the empty
frame: every fetch either returns the empty frame or passed all gates. -/
theorem fetch_never_raises_failure_empty (symbol start_date end_date api_base_url : String)
    (remote : RemoteBehavior) :
    fetch_stock_data symbol start_date end_date api_base_url remote = DataFrame.empty ∨
    passesAllGates remote = true := by
  rcases fetch_cases symbol start_date end_date api_base_url remote with h |
    ⟨kvs, sv, rows, dcol, ocol, hcol2, lcol, ccol, vcol, dates,
      rfl, hsym, hdata, hemp, hrec, hd, ho, hh, hl, hc, hv2, hdt, hfetch⟩
  · exact Or.inl h
  · right
    have hrows : dataRows (Json.obj kvs) = rows := by
      simp [dataRows, Json.getKey?, hdata]
    simp [passesAllGates, structurallyValid, symbolIsString, dataNonempty,
      rowsAreRecords, columnsResolvable, datesConvertible, Json.getKey?, Json.isObj,
      hsym, hdata, hrows, hemp, hrec, column_mapping, hd, ho, hh, hl, hc, hv2, hdt]

/-- A payload whose two point-records carry the same date: it passes every
gate, so the claim that returned dates are always unique and strictly
increasing is refuted. -/
def dupDatePayload : Json :=
  Json.obj [("symbol", Json.str "TEST"),
    ("data", Json.arr [
      Json.obj [("date", Json.str "2024-01-01"), ("open", Json.num 150),
        ("high", Json.num 157), ("low", Json.num 149), ("close", Json.num 155),
        ("volume", Json.num 1000000)],
      Json.obj [("date", Json.str "2024-01-01"), ("open", Json.num 156),
        ("high", Json.num 159), ("low", Json.num 154), ("close", Json.num 158),
        ("volume", Json.num 1100000)]])]

/-- C3 counterexample: a gate-passing payload with a duplicated date yields a
non-empty frame whose index is neither unique nor strictly increasing — the
fetcher neither sorts nor de-duplicates. -/
theorem fetch_duplicate_dates_counterexample :
    (fetch_stock_data "TEST" "2024-01-01" "2024-01-02" "http://localhost:8000"
      (.ok dupDatePayload)).isEmpty = false ∧
    (fetch_stock_data "TEST" "2024-01-01" "2024-01-02" "http://localhost:8000"
      (.ok dupDatePayload)).Date = [some 20240101, some 20240101] ∧
    datesStrictlyIncreasing
      (fetch_stock_data "TEST" "2024-01-01" "2024-01-02" "http://localhost:8000"
        (.ok dupDatePayload)).Date = false := by
  refine ⟨by decide, by decide, by decide⟩

/-- C3 (amended): a non-empty frame returned by `fetch_stock_data` carries
the payload's converted dates in payload order, with no sorting and no
de-duplication — so its index is unique and strictly increasing exactly when
the payload's date sequence already is. -/
theorem fetch_dates_in_payload_order (symbol start_date end_date api_base_url : String)
    (remote : RemoteBehavior)
    (hne : (fetch_stock_data symbol start_date end_date api_base_url remote).isEmpty
      = false) :
    (fetch_stock_data symbol start_date end_date api_base_url remote).Date =
      payloadDates remote := by
  rcases fetch_cases symbol start_date end_date api_base_url remote with h |
    ⟨kvs, sv, rows, dcol, ocol, hcol2, lcol, ccol, vcol, dates,
      rfl, hsym, hdata, hemp, hrec, hd, ho, hh, hl, hc, hv2, hdt, hfetch⟩
  · rw [h] at hne
    simp [DataFrame.isEmpty, DataFrame.empty] at hne
  · rw [hfetch]
    have hrows : dataRows (Json.obj kvs) = rows := by
      simp [dataRows, Json.getKey?, hdata]
    simp [payloadDates, hrows, hd, hdt]

/-- An ordered two-day payload used to witness the amended C3. -/
def orderedPayload : Json :=
  Json.obj [("symbol", Json.str "TEST"),
    ("data", Json.arr [
      Json.obj [("date", Json.str "2024-01-01"), ("open", Json.num 150),
        ("high", Json.num 157), ("low", Json.num 149), ("close", Json.num 155),
        ("volume", Json.num 1000000)],
      Json.obj [("date", Json.str "2024-01-02"), ("open", Json.num 156),
        ("high", Json.num 159), ("low", Json.num 154), ("close", Json.num 158),
        ("volume", Json.num 1100000)]])]

/-- C3 (amended) witness: the two-day payload's frame carries exactly the
payload's dates, in order. -/
theorem fetch_dates_in_payload_order_witness :
    (fetch_stock_data "TEST" "2024-01-01" "2024-01-02" "http://localhost:8000"
      (.ok orderedPayload)).Date = payloadDates (.ok orderedPayload) ∧
    payloadDates (.ok orderedPayload) = [some 20240101, some 20240102] := by
  exact ⟨fetch_dates_in_payload_order "TEST" "2024-01-01" "2024-01-02"
    "http://localhost:8000" (.ok orderedPayload) (by decide), by decide⟩

/-- A payload that passes the structural gate and the column gate but whose
single record carries an unparseable date together with a non-numeric
`open`. -/
def badDatePayload : Json :=
  Json.obj [("symbol", Json.str "TEST"),
    ("data", Json.arr [
      Json.obj [("date", Json.str "not-a-date"), ("open", Json.str "x"),
        ("high", Json.num 1), ("low", Json.num 1), ("close", Json.num 1),
        ("volume", Json.num 1)]])]

/-- C4 counterexample: this payload of N = 1 point-records passes the
structural and column gates and contains a numeric-parse failure in one
row's `Open` field, yet the returned series is empty (0 rows, not N): the
unparseable date makes `pd.to_datetime` raise, and the catch-all converts
that into the empty frame. -/
theorem row_count_preservation_counterexample :
    structurallyValid badDatePayload = true ∧
    symbolIsString badDatePayload = true ∧
    dataNonempty badDatePayload = true ∧
    rowsAreRecords badDatePayload = true ∧
    columnsResolvable badDatePayload = true ∧
    fetch_stock_data "TEST" "2024-01-01" "2024-01-31" "http://localhost:8000"
      (.ok badDatePayload) = DataFrame.empty := by
  refine ⟨by decide, by decide, by decide, by decide, by decide, by decide⟩

/-- C4 (amended): for a payload of N point-records that passes the
structural and column gates (each canonical column fed by its lowercase API
key) and whose dates all convert, every cell of every value column is the
numeric coercion of that row's own field — a parse failure in one cell
yields the sentinel there and nowhere else — and the frame has exactly N
rows. -/
theorem numeric_coercion_per_cell (symbol start_date end_date api_base_url sv : String)
    (kvs : List (String × Json)) (rows : List Json) (dates : List (Option Nat))
    (hsym : List.lookup "symbol" kvs = some (Json.str sv))
    (hdata : List.lookup "data" kvs = some (Json.arr rows))
    (hrows : rows.isEmpty = false) (hrec : rows.all Json.isObj = true)
    (hcols : ∀ p ∈ column_mapping, keyPresent rows p.1 = true ∧ keyPresent rows p.2 = false)
    (hdates : allSome ((colEntries rows "date").map toDatetimeEntry) = some dates) :
    fetch_stock_data symbol start_date end_date api_base_url (.ok (.obj kvs)) =
      { Date := dates,
        Open := rows.map (fun r => to_numeric (r.getKey? "open")),
        High := rows.map (fun r => to_numeric (r.getKey? "high")),
        Low := rows.map (fun r => to_numeric (r.getKey? "low")),
        Close := rows.map (fun r => to_numeric (r.getKey? "close")),
        Volume := rows.map (fun r => to_numeric (r.getKey? "volume")) } ∧
    dates.length = rows.length := by
  constructor
  · rw [fetch_success_frame symbol start_date end_date api_base_url sv kvs rows dates
      hsym hdata hrows hrec hcols hdates]
    simp [colEntries, List.map_map]
  · have h := allSome_length hdates
    simpa [colEntries] using h

/-- The spec's own example payload: row 1 has a non-numeric `open`, row 2 is
fully numeric. -/
def partialNumericPayload : Json :=
  Json.obj [("symbol", Json.str "TEST"),
    ("data", Json.arr [
      Json.obj [("date", Json.str "2024-01-01"), ("open", Json.str "not-a-number"),
        ("close", Json.num 155), ("high", Json.num 157), ("low", Json.num 149),
        ("volume", Json.num 1000000)],
      Json.obj [("date", Json.str "2024-01-02"), ("open", Json.num 156),
        ("close", Json.num 158), ("high", Json.num 159), ("low", Json.num 154),
        ("volume", Json.num 1100000)]])]

/-- C4 (amended) witness: row 1's `Open` is the sentinel, every other cell
keeps its parsed value, and both rows survive. -/
theorem numeric_coercion_per_cell_witness :
    fetch_stock_data "TEST" "2024-01-01" "2024-01-02" "http://mockapi.com"
      (.ok partialNumericPayload) =
      { Date := [some 20240101, some 20240102],
        Open := [none, some 156],
        High := [some 157, some 159],
        Low := [some 149, some 154],
        Close := [some 155, some 158],
        Volume := [some 1000000, some 1100000] } := by
  have h := numeric_coercion_per_cell "TEST" "2024-01-01" "2024-01-02"
    "http://mockapi.com" "TEST"
    [("symbol", Json.str "TEST"),
     ("data", Json.arr [
       Json.obj [("date", Json.str "2024-01-01"), ("open", Json.str "not-a-number"),
         ("close", Json.num 155), ("high", Json.num 157), ("low", Json.num 149),
         ("volume", Json.num 1000000)],
       Json.obj [("date", Json.str "2024-01-02"), ("open", Json.num 156),
         ("close", Json.num 158), ("high", Json.num 159), ("low", Json.num 154),
         ("volume", Json.num 1100000)]])]
    [Json.obj [("date", Json.str "2024-01-01"), ("open", Json.str "not-a-number"),
       ("close", Json.num 155), ("high", Json.num 157), ("low", Json.num 149),
       ("volume", Json.num 1000000)],
     Json.obj [("date", Json.str "2024-01-02"), ("open", Json.num 156),
       ("close", Json.num 158), ("high", Json.num 159), ("low", Json.num 154),
       ("volume", Json.num 1100000)]]
    [some 20240101, some 20240102] rfl rfl (by decide) (by decide)
    (by decide) (by decide)
  exact h.1.trans (by decide)

/-- C5: under the earlier gates (structural gate, string symbol, non-empty
record rows), a canonical column absent from the point-set as a whole
(neither its API key nor its canonical name occurs in any record) forces the
empty frame; a column that is present in at least one record (each canonical
column fed by its lowercase API key) does not count as absent: with
convertible dates the result is non-empty with one row per record, even when
some records lack the key. -/
theorem missing_column_gate (symbol start_date end_date api_base_url sv : String)
    (kvs : List (String × Json)) (rows : List Json)
    (hsym : List.lookup "symbol" kvs = some (Json.str sv))
    (hdata : List.lookup "data" kvs = some (Json.arr rows))
    (hrows : rows.isEmpty = false) (hrec : rows.all Json.isObj = true) :
    ((∃ p ∈ column_mapping, keyPresent rows p.1 = false ∧ keyPresent rows p.2 = false) →
      fetch_stock_data symbol start_date end_date api_base_url (.ok (.obj kvs)) =
        DataFrame.empty) ∧
    ((∀ p ∈ column_mapping, keyPresent rows p.1 = true ∧ keyPresent rows p.2 = false) →
      ∀ dates, allSome ((colEntries rows "date").map toDatetimeEntry) = some dates →
      (fetch_stock_data symbol start_date end_date api_base_url
        (.ok (.obj kvs))).isEmpty = false ∧
      (fetch_stock_data symbol start_date end_date api_base_url
        (.ok (.obj kvs))).Date.length = rows.length) := by
  constructor
  · rintro ⟨p, hpmem, hk, hCa⟩
    have hnone : resolveCol rows p.1 p.2 = none := by
      simp [resolveCol, hk, hCa]
    rcases fetch_cases symbol start_date end_date api_base_url (.ok (.obj kvs)) with h |
      ⟨kvs2, sv2, rows2, dcol, ocol, hcol2, lcol, ccol, vcol, dates,
        heq, hsym2, hdata2, hemp2, hrec2, hd, ho, hh, hl, hc, hv2, hdt, hfetch⟩
    · exact h
    · exfalso
      obtain rfl : kvs2 = kvs := by
        injection heq with h1
        injection h1 with h2
        exact h2.symm
      rw [hdata] at hdata2
      injection hdata2 with h3
      injection h3 with h4
      subst h4
      simp only [column_mapping, List.mem_cons, List.not_mem_nil, or_false] at hpmem
      rcases hpmem with rfl | rfl | rfl | rfl | rfl | rfl <;> simp_all
  · intro hcols dates hdates
    have hframe := fetch_success_frame symbol start_date end_date api_base_url sv kvs
      rows dates hsym hdata hrows hrec hcols hdates
    have hlen : dates.length = rows.length := by
      simpa [colEntries] using allSome_length hdates
    have hrne : rows ≠ [] := by simpa using hrows
    have hdpos : 0 < dates.length := by
      rw [hlen]
      exact List.length_pos.mpr hrne
    rw [hframe]
    constructor
    · simp only [DataFrame.isEmpty, List.isEmpty_eq_false]
      exact List.ne_nil_of_length_pos hdpos
    · exact hlen

/-- A payload whose single record lacks `open` entirely: the column is
absent from the whole point-set. -/
def missingColumnPayload : Json :=
  Json.obj [("symbol", Json.str "TEST"),
    ("data", Json.arr [
      Json.obj [("date", Json.str "2024-01-01"), ("close", Json.num 155),
        ("high", Json.num 157), ("low", Json.num 149), ("volume", Json.num 1000000)]])]

/-- A payload where `open` is missing in the first of two records but
present in the second: the column is present for the point-set as a whole. -/
def partialColumnPayload : Json :=
  Json.obj [("symbol", Json.str "TEST"),
    ("data", Json.arr [
      Json.obj [("date", Json.str "2024-01-01"), ("close", Json.num 155),
        ("high", Json.num 157), ("low", Json.num 149), ("volume", Json.num 1000000)],
      Json.obj [("date", Json.str "2024-01-02"), ("open", Json.num 156),
        ("close", Json.num 158), ("high", Json.num 159), ("low", Json.num 154),
        ("volume", Json.num 1100000)]])]

/-- C5 witness: the wholly-missing `open` column empties the result, while
the partially-missing one leaves a 2-row frame. -/
theorem missing_column_gate_witness :
    fetch_stock_data "TEST" "2024-01-01" "2024-01-02" "http://mockapi.com"
      (.ok missingColumnPayload) = DataFrame.empty ∧
    (fetch_stock_data "TEST" "2024-01-01" "2024-01-02" "http://mockapi.com"
      (.ok partialColumnPayload)).isEmpty = false ∧
    (fetch_stock_data "TEST" "2024-01-01" "2024-01-02" "http://mockapi.com"
      (.ok partialColumnPayload)).Date.length = 2 := by
  refine ⟨?_, ?_, ?_⟩
  · exact (missing_column_gate "TEST" "2024-01-01" "2024-01-02" "http://mockapi.com"
      "TEST" [("symbol", Json.str "TEST"),
        ("data", Json.arr [
          Json.obj [("date", Json.str "2024-01-01"), ("close", Json.num 155),
            ("high", Json.num 157), ("low", Json.num 149), ("volume", Json.num 1000000)]])]
      [Json.obj [("date", Json.str "2024-01-01"), ("close", Json.num 155),
        ("high", Json.num 157), ("low", Json.num 149), ("volume", Json.num 1000000)]]
      rfl rfl (by decide) (by decide)).1
      ⟨("open", "Open"), by decide, by decide, by decide⟩
  · exact ((missing_column_gate "TEST" "2024-01-01" "2024-01-02" "http://mockapi.com"
      "TEST" [("symbol", Json.str "TEST"),
        ("data", Json.arr [
          Json.obj [("date", Json.str "2024-01-01"), ("close", Json.num 155),
            ("high", Json.num 157), ("low", Json.num 149), ("volume", Json.num 1000000)],
          Json.obj [("date", Json.str "2024-01-02"), ("open", Json.num 156),
            ("close", Json.num 158), ("high", Json.num 159), ("low", Json.num 154),
            ("volume", Json.num 1100000)]])]
      [Json.obj [("date", Json.str "2024-01-01"), ("close", Json.num 155),
        ("high", Json.num 157), ("low", Json.num 149), ("volume", Json.num 1000000)],
       Json.obj [("date", Json.str "2024-01-02"), ("open", Json.num 156),
        ("close", Json.num 158), ("high", Json.num 159), ("low", Json.num 154),
        ("volume", Json.num 1100000)]]
      rfl rfl (by decide) (by decide)).2 (by decide)
      [some 20240101, some 20240102] (by decide)).1
  · exact ((missing_column_gate "TEST" "2024-01-01" "2024-01-02" "http://mockapi.com"
      "TEST" [("symbol", Json.str "TEST"),
        ("data", Json.arr [
          Json.obj [("date", Json.str "2024-01-01"), ("close", Json.num 155),
            ("high", Json.num 157), ("low", Json.num 149), ("volume", Json.num 1000000)],
          Json.obj [("date", Json.str "2024-01-02"), ("open", Json.num 156),
            ("close", Json.num 158), ("high", Json.num 159), ("low", Json.num 154),
            ("volume", Json.num 1100000)]])]
      [Json.obj [("date", Json.str "2024-01-01"), ("close", Json.num 155),
        ("high", Json.num 157), ("low", Json.num 149), ("volume", Json.num 1000000)],
       Json.obj [("date", Json.str "2024-01-02"), ("open", Json.num 156),
        ("close", Json.num 158), ("high", Json.num 159), ("low", Json.num 154),
        ("volume", Json.num 1100000)]]
      rfl rfl (by decide) (by decide)).2 (by decide)
      [some 20240101, some 20240102] (by decide)).2

/-- C9: two structurally valid payloads that agree on `data` and whose
`symbol` values are both strings produce identical frames — a mismatching
symbol string is only warned about and never changes the result. -/
theorem symbol_value_irrelevant (symbol start_date end_date api_base_url : String)
    (kvs1 kvs2 : List (String × Json)) (a b : String)
    (h1 : List.lookup "symbol" kvs1 = some (Json.str a))
    (h2 : List.lookup "symbol" kvs2 = some (Json.str b))
    (hdata : List.lookup "data" kvs1 = List.lookup "data" kvs2) :
    fetch_stock_data symbol start_date end_date api_base_url (.ok (.obj kvs1)) =
      fetch_stock_data symbol start_date end_date api_base_url (.ok (.obj kvs2)) := by
  simp only [fetch_stock_data, h1, h2, hdata]
  cases List.lookup "data" kvs2 with
  | none => rfl
  | some v => cases v <;> rfl

/-- C9 witness: the same data under symbol values "AAPL" and "msft" gives
the same frame. -/
theorem symbol_value_irrelevant_witness :
    fetch_stock_data "AAPL" "2024-01-01" "2024-01-02" "http://localhost:8000"
      (.ok (Json.obj [("symbol", Json.str "AAPL"),
        ("data", Json.arr [Json.obj [("date", Json.str "2024-01-01"),
          ("open", Json.num 150), ("high", Json.num 157), ("low", Json.num 149),
          ("close", Json.num 155), ("volume", Json.num 1000000)]])])) =
    fetch_stock_data "AAPL" "2024-01-01" "2024-01-02" "http://localhost:8000"
      (.ok (Json.obj [("symbol", Json.str "msft"),
        ("data", Json.arr [Json.obj [("date", Json.str "2024-01-01"),
          ("open", Json.num 150), ("high", Json.num 157), ("low", Json.num 149),
          ("close", Json.num 155), ("volume", Json.num 1000000)]])])) :=
  symbol_value_irrelevant "AAPL" "2024-01-01" "2024-01-02" "http://localhost:8000"
    [("symbol", Json.str "AAPL"),
      ("data", Json.arr [Json.obj [("date", Json.str "2024-01-01"),
        ("open", Json.num 150), ("high", Json.num 157), ("low", Json.num 149),
        ("close", Json.num 155), ("volume", Json.num 1000000)]])]
    [("symbol", Json.str "msft"),
      ("data", Json.arr [Json.obj [("date", Json.str "2024-01-01"),
        ("open", Json.num 150), ("high", Json.num 157), ("low", Json.num 149),
        ("close", Json.num 155), ("volume", Json.num 1000000)]])]
    "AAPL" "msft" rfl rfl rfl

/-- C10: a parsed mapping holding `symbol` and list-valued `data` keys but a
non-string `symbol` value passes the presence-only structural gate, and the
subsequent `.upper()` call's `AttributeError` is absorbed by the catch-all:
the fetch returns the empty frame instead of raising. -/
theorem nonstring_symbol_returns_empty (symbol start_date end_date api_base_url : String)
    (kvs : List (String × Json)) (v : Json) (rows : List Json)
    (hsym : List.lookup "symbol" kvs = some v) (hns : v.isStr = false)
    (hdata : List.lookup "data" kvs = some (Json.arr rows)) :
    fetch_stock_data symbol start_date end_date api_base_url (.ok (.obj kvs)) =
      DataFrame.empty := by
  simp only [fetch_stock_data, hsym, hdata]
  cases v with
  | str s => simp [Json.isStr] at hns
  | null => rfl
  | bool b => rfl
  | num q => rfl
  | arr xs => rfl
  | obj kvs2 => rfl

/-- C10 witness: a numeric `symbol` value with a well-formed `data` list
yields the empty frame. -/
theorem nonstring_symbol_returns_empty_witness :
    fetch_stock_data "TEST" "2024-01-01" "2024-01-02" "http://localhost:8000"
      (.ok (Json.obj [("symbol", Json.num 123), ("data", Json.arr [])])) =
      DataFrame.empty :=
  nonstring_symbol_returns_empty "TEST" "2024-01-01" "2024-01-02" "http://localhost:8000"
    [("symbol", Json.num 123), ("data", Json.arr [])] (Json.num 123) [] rfl rfl rfl

end FinanceLake
